import Mathlib

/-!
Verification of the DronePilot terrain / flight / projectile core.

Shallow embedding of the JavaScript source over the rationals:
the external noise function (three.js ImprovedNoise) and the
trigonometric functions used by local-axis translation are
uninterpreted function parameters, since both live outside the
repository; every other definition is translated line by line from
the source files (Variables.js, Terrain.js, DroneControls.js,
Drone.js).
-/

namespace DronePilot

/-- 3D vector over the rationals (three.js Vector3 restricted to the
operations the embedded code uses). -/
structure Vec3 where
  x : ℚ
  y : ℚ
  z : ℚ
deriving DecidableEq, Repr

/-- Componentwise vector addition (Vector3.add). -/
def Vec3.add (v w : Vec3) : Vec3 :=
  ⟨v.x + w.x, v.y + w.y, v.z + w.z⟩

/-- Scalar multiple of a vector (Vector3.multiplyScalar). -/
def Vec3.scale (a : ℚ) (v : Vec3) : Vec3 :=
  ⟨a * v.x, a * v.y, a * v.z⟩

/-- A noise field: the ImprovedNoise sample function, kept abstract
because it is an external three.js module. -/
def Noise : Type := ℚ → ℚ → ℚ → ℚ

-- ===========================================================================
-- Variables.js : shared configuration constants
-- ===========================================================================

namespace ColorVariables

def terrainColor_m50 : ℕ := 0x000033
def terrainColor_m40 : ℕ := 0x001a66
def terrainColor_m30 : ℕ := 0x003399
def terrainColor_m20 : ℕ := 0x004ccf
def terrainColor_m10 : ℕ := 0x1f75ff
def terrainColor_0 : ℕ := 0x66ccff
def terrainColor_p10 : ℕ := 0xeedc82
def terrainColor_p20 : ℕ := 0xd2b48c
def terrainColor_p30 : ℕ := 0x7cfc00
def terrainColor_p40 : ℕ := 0x228b22
def terrainColor_p50 : ℕ := 0x006400
def terrainColor_p60 : ℕ := 0x8b7765
def terrainColor_p70 : ℕ := 0xa9a9a9
def terrainColor_p80 : ℕ := 0x808080
def terrainColor_p90 : ℕ := 0x696969
def terrainColor_p100 : ℕ := 0xffffff

def landMetalness : ℚ := 125/1000
def landRoughness : ℚ := 875/1000
def waterMetalness : ℚ := 875/1000
def waterRoughness : ℚ := 125/1000

end ColorVariables

namespace DroneVariables

def moveSpeed : ℚ := 32
def rotateSpeed : ℚ := 2
def heightMax : ℚ := 2048
def basicMultiplier : ℚ := 2
def thrustMultiplier : ℚ := 6
def minAboveGround : ℚ := 4
def nullPoint : ℚ := 0
def projectileSpeed : ℚ := 120
def projectileTTL : ℚ := 4
def cooldown : ℚ := 0
def cooldownTime : ℚ := 3/10

end DroneVariables

namespace TerrainVariables

def terrainSize : ℚ := 8192
def terrainDetails : ℚ := 256
def terrainBorderFactor : ℚ := 2
def terrainBorderDelimiter : ℚ := 125/1000

def terrainHeight_m50 : ℚ := -50
def terrainHeight_m40 : ℚ := -40
def terrainHeight_m30 : ℚ := -30
def terrainHeight_m20 : ℚ := -20
def terrainHeight_m10 : ℚ := -10
def terrainHeight_0 : ℚ := 0
def terrainHeight_p10 : ℚ := 10
def terrainHeight_p20 : ℚ := 20
def terrainHeight_p30 : ℚ := 30
def terrainHeight_p40 : ℚ := 40
def terrainHeight_p50 : ℚ := 50
def terrainHeight_p60 : ℚ := 60
def terrainHeight_p70 : ℚ := 70
def terrainHeight_p80 : ℚ := 80
def terrainHeight_p90 : ℚ := 90

end TerrainVariables

-- ===========================================================================
-- Terrain.js : height function, mesh vertex heights, classification
-- ===========================================================================

/-- Terrain.js getTerrainHeight: fractal noise with domain warping.
Decimal coefficients of the source are written as exact rationals. -/
def getTerrainHeight (x z : ℚ) (noise : Noise) : ℚ :=
  let warpX := x + noise (x * (1/1000)) (z * (1/1000)) 50 * 128
  let warpZ := z + noise (x * (1/1000)) (z * (1/1000)) 100 * 128
  0 + noise (warpX * (2/1000)) (warpZ * (2/1000)) 0 * 100
    + noise (warpX * (1/100)) (warpZ * (1/100)) 0 * 25
    + noise (warpX * (5/100)) (warpZ * (5/100)) 0 * 5

/-- Terrain.js constructor, height normalization step (lines with
fixedHeight): heights in (-1, 0) become -1 and heights in [0, 1)
become 1 before being written into the mesh. -/
def meshFixedHeight (h : ℚ) : ℚ :=
  let f0 := h
  let f1 := if -1 < h ∧ h < 0 then -1 else f0
  let f2 := if 0 ≤ h ∧ h < 1 then 1 else f1
  f2

/-- The Y coordinate written into the terrain mesh at grid sample
point (x, z): pos.setY(i, fixedHeight) in the Terrain constructor. -/
def meshVertexY (x z : ℚ) (noise : Noise) : ℚ :=
  meshFixedHeight (getTerrainHeight x z noise)

/-- Coordinate of the i-th grid sample along one axis of the
PlaneGeometry(size, size, seg, seg) vertex grid. -/
def meshGridCoord (i : ℕ) : ℚ :=
  -(TerrainVariables.terrainSize / 2)
    + (i : ℚ) * (TerrainVariables.terrainSize / TerrainVariables.terrainDetails)

/-- Terrain.js constructor, height-based color selection: the if/else
chain over the elevation thresholds, translated condition by
condition from the source. -/
def terrainColorFor (h : ℚ) : ℕ :=
  if h ≤ TerrainVariables.terrainHeight_m50 then ColorVariables.terrainColor_m50
  else if h ≤ TerrainVariables.terrainHeight_m40 then ColorVariables.terrainColor_m40
  else if h ≤ TerrainVariables.terrainHeight_m30 then ColorVariables.terrainColor_m30
  else if h ≤ TerrainVariables.terrainHeight_m20 then ColorVariables.terrainColor_m20
  else if h ≤ TerrainVariables.terrainHeight_m10 then ColorVariables.terrainColor_m10
  else if h ≤ TerrainVariables.terrainHeight_0 then ColorVariables.terrainColor_0
  else if h ≤ TerrainVariables.terrainHeight_p10 then ColorVariables.terrainColor_p10
  else if h ≤ TerrainVariables.terrainHeight_p20 then ColorVariables.terrainColor_p20
  else if h ≤ TerrainVariables.terrainHeight_p30 then ColorVariables.terrainColor_p30
  else if h ≤ TerrainVariables.terrainHeight_p40 then ColorVariables.terrainColor_p40
  else if h ≤ TerrainVariables.terrainHeight_p50 then ColorVariables.terrainColor_p50
  else if h ≤ TerrainVariables.terrainHeight_p60 then ColorVariables.terrainColor_p60
  else if h ≤ TerrainVariables.terrainHeight_p70 then ColorVariables.terrainColor_p70
  else if h ≤ TerrainVariables.terrainHeight_p80 then ColorVariables.terrainColor_p80
  else if h ≤ TerrainVariables.terrainHeight_p90 then ColorVariables.terrainColor_p90
  else ColorVariables.terrainColor_p100

/-- Terrain.js constructor, surface material selection: water
parameters exactly when h <= 0, land parameters otherwise. -/
def surfaceAttrs (h : ℚ) : ℚ × ℚ :=
  if h ≤ 0 then (ColorVariables.waterMetalness, ColorVariables.waterRoughness)
  else (ColorVariables.landMetalness, ColorVariables.landRoughness)

/-- The ordered threshold table of the elevation classifier, as pairs
(inclusive upper bound, color). -/
def thresholdTable : List (ℚ × ℕ) :=
  [(TerrainVariables.terrainHeight_m50, ColorVariables.terrainColor_m50),
   (TerrainVariables.terrainHeight_m40, ColorVariables.terrainColor_m40),
   (TerrainVariables.terrainHeight_m30, ColorVariables.terrainColor_m30),
   (TerrainVariables.terrainHeight_m20, ColorVariables.terrainColor_m20),
   (TerrainVariables.terrainHeight_m10, ColorVariables.terrainColor_m10),
   (TerrainVariables.terrainHeight_0, ColorVariables.terrainColor_0),
   (TerrainVariables.terrainHeight_p10, ColorVariables.terrainColor_p10),
   (TerrainVariables.terrainHeight_p20, ColorVariables.terrainColor_p20),
   (TerrainVariables.terrainHeight_p30, ColorVariables.terrainColor_p30),
   (TerrainVariables.terrainHeight_p40, ColorVariables.terrainColor_p40),
   (TerrainVariables.terrainHeight_p50, ColorVariables.terrainColor_p50),
   (TerrainVariables.terrainHeight_p60, ColorVariables.terrainColor_p60),
   (TerrainVariables.terrainHeight_p70, ColorVariables.terrainColor_p70),
   (TerrainVariables.terrainHeight_p80, ColorVariables.terrainColor_p80),
   (TerrainVariables.terrainHeight_p90, ColorVariables.terrainColor_p90)]

/-- Top-down first-match lookup over a threshold table, falling back
to the catch-all bucket: the reference semantics of the classifier
(evaluated top-down, first bucket with h <= bound wins). -/
def firstMatchBucket (h : ℚ) : List (ℚ × ℕ) → ℕ
  | [] => ColorVariables.terrainColor_p100
  | p :: rest => if h ≤ p.1 then p.2 else firstMatchBucket h rest

/-- Modelled from the spec: the HeightSampler algorithm of section 4.2
as written (warp each axis with low-frequency noise at a fixed
distinguishing layer, then sum amplitude-weighted octaves over a
fixed octave list), to be compared with the source getTerrainHeight. -/
def specOctaves : List (ℚ × ℚ) :=
  [(2/1000, 100), (1/100, 25), (5/100, 5)]

/-- Modelled from the spec: two-step height formula of section 4.2. -/
def specTerrainHeight (x z : ℚ) (noise : Noise) : ℚ :=
  let wx := x + 128 * noise (x * (1/1000)) (z * (1/1000)) 50
  let wz := z + 128 * noise (x * (1/1000)) (z * (1/1000)) 100
  specOctaves.foldl (fun acc oct => acc + oct.2 * noise (wx * oct.1) (wz * oct.1) 0) 0

-- ===========================================================================
-- DroneControls.js : constructor defaulting and per-frame applyInput
-- ===========================================================================

/-- JavaScript logical-or defaulting for a numeric option field: an
absent field or the falsy value 0 selects the fallback. -/
def jsNumOr (v : Option ℚ) (d : ℚ) : ℚ :=
  match v with
  | none => d
  | some q => if q = 0 then d else q

/-- JavaScript logical-or between two numbers already at hand. -/
def jsNumOrQ (q d : ℚ) : ℚ :=
  if q = 0 then d else q

/-- The options object accepted by the DroneControls constructor; a
missing property is none. -/
structure ControlsOptions where
  moveSpeed : Option ℚ
  rotateSpeed : Option ℚ
  worldSize : Option ℚ
  heightMax : Option ℚ

/-- The terrain object as seen by DroneControls: only its size field
is read. The Terrain constructor sets size to terrainSize. -/
structure TerrainCfg where
  size : ℚ

/-- The numeric configuration the DroneControls constructor stores. -/
structure DroneControls where
  moveSpeed : ℚ
  rotateSpeed : ℚ
  worldSize : ℚ
  heightMax : ℚ
  basicMultiplier : ℚ
  thrustMultiplier : ℚ
deriving DecidableEq, Repr

/-- DroneControls constructor: logical-or defaulting of each option
against the module defaults (worldSize falls back to terrain.size
first, then to the module default). -/
def DroneControls.ofOptions (terrain : TerrainCfg) (opts : ControlsOptions) : DroneControls :=
  ⟨jsNumOr opts.moveSpeed DroneVariables.moveSpeed,
   jsNumOr opts.rotateSpeed DroneVariables.rotateSpeed,
   jsNumOr opts.worldSize (jsNumOrQ terrain.size TerrainVariables.terrainSize),
   jsNumOr opts.heightMax DroneVariables.heightMax,
   DroneVariables.basicMultiplier,
   DroneVariables.thrustMultiplier⟩

/-- Key state snapshot read by applyInput (this.keys entries). -/
structure Keys where
  keyW : Bool
  keyS : Bool
  keyQ : Bool
  keyE : Bool
  keyA : Bool
  keyD : Bool
  space : Bool
  controlLeft : Bool
  controlRight : Bool
  shiftLeft : Bool
  shiftRight : Bool
deriving DecidableEq, Repr

/-- The all-keys-released snapshot. -/
def noKeys : Keys :=
  ⟨false, false, false, false, false, false, false, false, false, false, false⟩

/-- Drone pose mutated by applyInput: group position and yaw. -/
structure DroneState where
  x : ℚ
  y : ℚ
  z : ℚ
  yaw : ℚ
deriving DecidableEq, Repr

/-- Math.max(lo, Math.min(hi, v)) as used by the boundary and
altitude clamps. -/
def clampQ (lo hi v : ℚ) : ℚ :=
  max lo (min hi v)

/-- The boundary half-extent computed inside applyInput:
worldSize / (terrainBorderFactor + terrainBorderDelimiter). -/
def DroneControls.half (c : DroneControls) : ℚ :=
  c.worldSize / (TerrainVariables.terrainBorderFactor + TerrainVariables.terrainBorderDelimiter)

/-- The speed multiplier selected by the shift keys. -/
def Keys.multiplier (keys : Keys) (c : DroneControls) : ℚ :=
  if keys.shiftLeft || keys.shiftRight then c.thrustMultiplier else c.basicMultiplier

/-- World X after the translation block of applyInput, before
clamping. translateZ and translateX move along the local axes of the
drone group, whose world direction depends on the yaw; cosf and sinf
are the (uninterpreted) trigonometric functions of that rotation. -/
def preX (c : DroneControls) (cosf sinf : ℚ → ℚ) (keys : Keys) (dt : ℚ) (s : DroneState) : ℚ :=
  let move := c.moveSpeed * dt * keys.multiplier c
  s.x + (if keys.keyW then -move * sinf s.yaw else 0)
      + (if keys.keyS then move * sinf s.yaw else 0)
      + (if keys.keyQ then -move * cosf s.yaw else 0)
      + (if keys.keyE then move * cosf s.yaw else 0)

/-- World Z after the translation block of applyInput, before
clamping. -/
def preZ (c : DroneControls) (cosf sinf : ℚ → ℚ) (keys : Keys) (dt : ℚ) (s : DroneState) : ℚ :=
  let move := c.moveSpeed * dt * keys.multiplier c
  s.z + (if keys.keyW then -move * cosf s.yaw else 0)
      + (if keys.keyS then move * cosf s.yaw else 0)
      + (if keys.keyQ then move * sinf s.yaw else 0)
      + (if keys.keyE then -move * sinf s.yaw else 0)

/-- World Y after the altitude keys, before the terrain and ceiling
clamp. -/
def preY (c : DroneControls) (keys : Keys) (dt : ℚ) (s : DroneState) : ℚ :=
  let move := c.moveSpeed * dt * keys.multiplier c
  s.y + (if keys.space then move else 0)
      - (if keys.controlLeft || keys.controlRight then move else 0)

/-- Yaw after the rotation keys. -/
def newYaw (c : DroneControls) (keys : Keys) (dt : ℚ) (s : DroneState) : ℚ :=
  let rot := c.rotateSpeed * dt
  s.yaw + (if keys.keyA then rot else 0) - (if keys.keyD then rot else 0)

/-- DroneControls.applyInput: translation and rotation from the key
state, then world-boundary clamping of x and z, then the terrain
collision and altitude clamp of y at the clamped (x, z). -/
def DroneControls.applyInput (c : DroneControls) (noise : Noise) (cosf sinf : ℚ → ℚ)
    (keys : Keys) (dt : ℚ) (s : DroneState) : DroneState :=
  let x2 := clampQ (-c.half) c.half (preX c cosf sinf keys dt s)
  let z2 := clampQ (-c.half) c.half (preZ c cosf sinf keys dt s)
  let groundHeight := getTerrainHeight x2 z2 noise
  let minHeight := max DroneVariables.nullPoint (groundHeight + DroneVariables.minAboveGround)
  let y2 := clampQ minHeight c.heightMax (preY c keys dt s)
  ⟨x2, y2, z2, newYaw c keys dt s⟩

/-- The DroneControls instance App.js constructs: explicit moveSpeed,
rotateSpeed and heightMax options, worldSize from the terrain. -/
def appControls : DroneControls :=
  DroneControls.ofOptions ⟨TerrainVariables.terrainSize⟩
    ⟨some DroneVariables.moveSpeed, some DroneVariables.rotateSpeed,
     none, some DroneVariables.heightMax⟩

-- ===========================================================================
-- Drone.js : firing system and per-frame update
-- ===========================================================================

/-- A live projectile: mesh position plus the dir and life fields of
its userData. -/
structure Projectile where
  pos : Vec3
  dir : Vec3
  life : ℚ
deriving DecidableEq, Repr

/-- The camera data Drone.fire reads: world position of the camera
and the forward direction (0,0,-1) rotated by the camera quaternion
and normalized; both are inputs to the embedded core. -/
structure Camera where
  worldPos : Vec3
  forward : Vec3
deriving DecidableEq, Repr

/-- The firing-system state of the drone entity. -/
structure Drone where
  cooldown : ℚ
  cooldownTime : ℚ
  projectileSpeed : ℚ
  projectileTTL : ℚ
  projectiles : List Projectile
  rotors : List ℚ
deriving DecidableEq, Repr

/-- Drone.fire: rejected while the cooldown is positive or outside
first-person mode; otherwise resets the cooldown and appends a new
projectile at the camera position with the camera forward direction
and full time-to-live. The JavaScript function returns undefined on
every path, so the outcome is observable only through the state. -/
def Drone.fire (d : Drone) (cam : Camera) (mode : String) : Drone :=
  if 0 < d.cooldown then d
  else if mode ≠ "first" then d
  else
    { d with
      cooldown := d.cooldownTime,
      projectiles := d.projectiles ++ [⟨cam.worldPos, cam.forward, d.projectileTTL⟩] }

/-- One projectile advance step inside Drone.update: move along dir
by projectileSpeed * dt, then decrease the remaining life by dt. -/
def stepProjectile (speed dt : ℚ) (p : Projectile) : Projectile :=
  ⟨p.pos.add (Vec3.scale (speed * dt) p.dir), p.dir, p.life - dt⟩

/-- Drone.update: rotor spin, cooldown decrease clamped at 0, then
advance every projectile and remove those whose life dropped to 0 or
below. -/
def Drone.update (d : Drone) (dt : ℚ) : Drone :=
  { d with
    rotors := d.rotors.map (fun r => r + dt * 40),
    cooldown := if 0 < d.cooldown then max 0 (d.cooldown - dt) else d.cooldown,
    projectiles :=
      (d.projectiles.map (stepProjectile d.projectileSpeed dt)).filter
        (fun p => decide (0 < p.life)) }

/-- Folding Drone.update over a list of frame deltas. -/
def Drone.advanceAll (d : Drone) (dts : List ℚ) : Drone :=
  dts.foldl Drone.update d

-- ===========================================================================
-- Concrete fixtures used by closed theorems
-- ===========================================================================

/-- A camera at the origin looking down the negative Z axis. -/
def camOrigin : Camera :=
  ⟨⟨0, 0, 0⟩, ⟨0, 0, -1⟩⟩

/-- A drone whose fire cooldown has fully expired. -/
def droneReady : Drone :=
  ⟨0, DroneVariables.cooldownTime, DroneVariables.projectileSpeed,
   DroneVariables.projectileTTL, [], []⟩

/-- A drone whose fire cooldown is still running. -/
def droneHot : Drone :=
  ⟨DroneVariables.cooldownTime, DroneVariables.cooldownTime,
   DroneVariables.projectileSpeed, DroneVariables.projectileTTL, [], []⟩

/-- A drone carrying one live projectile with full time-to-live. -/
def droneWithProj : Drone :=
  ⟨0, DroneVariables.cooldownTime, DroneVariables.projectileSpeed,
   DroneVariables.projectileTTL, [⟨⟨0, 0, 0⟩, ⟨0, 0, -1⟩, DroneVariables.projectileTTL⟩], []⟩

/-- The projectile carried by droneWithProj. -/
def projFull : Projectile :=
  ⟨⟨0, 0, 0⟩, ⟨0, 0, -1⟩, DroneVariables.projectileTTL⟩

/-- A second live projectile with a short remaining life. -/
def projHalf : Projectile :=
  ⟨⟨1, 2, 3⟩, ⟨0, 0, -1⟩, 3/2⟩

/-- A drone carrying two concurrent live projectiles, as the program
routinely does (cooldown 0.3 s against a 4 s time-to-live). -/
def droneTwoProj : Drone :=
  ⟨0, DroneVariables.cooldownTime, DroneVariables.projectileSpeed,
   DroneVariables.projectileTTL, [projFull, projHalf], []⟩

/-- An options object whose every numeric field is present but 0. -/
def zeroOpts : ControlsOptions :=
  ⟨some 0, some 0, some 0, some 0⟩

/-- The terrain configuration the Terrain constructor produces. -/
def defaultTerrainCfg : TerrainCfg :=
  ⟨TerrainVariables.terrainSize⟩

/-- A constant noise field witnessing a height strictly between -1
and 0 at every sample point. -/
def constNoiseNeg : Noise :=
  fun _ _ _ => -(1/260)

/-- The everywhere-zero noise field. -/
def noiseZero : Noise :=
  fun _ _ _ => 0

/-- Trigonometric stand-ins for a zero yaw: cosine constantly 1. -/
def cosfOne : ℚ → ℚ :=
  fun _ => 1

/-- Trigonometric stand-ins for a zero yaw: sine constantly 0. -/
def sinfZero : ℚ → ℚ :=
  fun _ => 0

/-- Key snapshot holding only the right-strafe key (KeyE), which at
zero yaw pushes the drone toward positive world X every frame. -/
def pushRightKeys : Keys :=
  ⟨false, false, false, true, false, false, false, false, false, false, false⟩

/-- The start pose of the drone in App.js. -/
def startState : DroneState :=
  ⟨0, 50, 0, 0⟩

-- ===========================================================================
-- Helper lemmas
-- ===========================================================================

/-- The height normalization is the identity exactly on heights of
magnitude at least 1. -/
theorem meshFixedHeight_eq_iff (h : ℚ) :
    meshFixedHeight h = h ↔ (h ≤ -1 ∨ 1 ≤ h) := by
  simp only [meshFixedHeight]
  split_ifs with h1 h2
  · obtain ⟨ha, hb⟩ := h1
    exact iff_of_false (fun heq => by linarith [heq])
      (fun hor => by rcases hor with hh | hh <;> linarith)
  · obtain ⟨ha, hb⟩ := h2
    exact iff_of_false (fun heq => by linarith [heq.symm])
      (fun hor => by rcases hor with hh | hh <;> linarith)
  · push_neg at h1 h2
    refine iff_of_true rfl ?_
    rcases le_or_lt h (-1) with hh | hh
    · exact Or.inl hh
    · exact Or.inr (h1 (h2 hh))

/-- Projection of the stored moveSpeed out of the constructor. -/
theorem ofOptions_moveSpeed (terrain : TerrainCfg) (opts : ControlsOptions) :
    (DroneControls.ofOptions terrain opts).moveSpeed
      = jsNumOr opts.moveSpeed DroneVariables.moveSpeed := rfl

/-- Projection of the stored rotateSpeed out of the constructor. -/
theorem ofOptions_rotateSpeed (terrain : TerrainCfg) (opts : ControlsOptions) :
    (DroneControls.ofOptions terrain opts).rotateSpeed
      = jsNumOr opts.rotateSpeed DroneVariables.rotateSpeed := rfl

/-- Projection of the stored worldSize out of the constructor. -/
theorem ofOptions_worldSize (terrain : TerrainCfg) (opts : ControlsOptions) :
    (DroneControls.ofOptions terrain opts).worldSize
      = jsNumOr opts.worldSize (jsNumOrQ terrain.size TerrainVariables.terrainSize) := rfl

/-- Projection of the stored heightMax out of the constructor. -/
theorem ofOptions_heightMax (terrain : TerrainCfg) (opts : ControlsOptions) :
    (DroneControls.ofOptions terrain opts).heightMax
      = jsNumOr opts.heightMax DroneVariables.heightMax := rfl

/-- The value 0 is falsy for the logical-or defaulting. -/
theorem jsNumOr_some_zero (d : ℚ) : jsNumOr (some 0) d = d := by
  simp [jsNumOr]

/-- The logical-or of a value with itself is that value. -/
theorem jsNumOrQ_self (q : ℚ) : jsNumOrQ q q = q := by
  simp [jsNumOrQ]

-- ===========================================================================
-- Claim theorems
-- ===========================================================================

/-- C1 (counterexample): at the grid sample point (0, 0) and a noise
field yielding terrain height -1/2, the Y written into the mesh
is -1 while the collision path reads getTerrainHeight = -1/2, so the
mesh vertex height does not equal the collision height. -/
theorem mesh_height_mismatch_at_grid_origin :
    meshGridCoord 128 = 0
    ∧ getTerrainHeight 0 0 constNoiseNeg = -(1/2)
    ∧ meshVertexY 0 0 constNoiseNeg = -1
    ∧ meshVertexY 0 0 constNoiseNeg ≠ getTerrainHeight 0 0 constNoiseNeg := by
  refine ⟨?_, ?_, ?_, ?_⟩
  · norm_num [meshGridCoord, TerrainVariables.terrainSize, TerrainVariables.terrainDetails]
  · norm_num [getTerrainHeight, constNoiseNeg]
  · norm_num [meshVertexY, meshFixedHeight, getTerrainHeight, constNoiseNeg]
  · norm_num [meshVertexY, meshFixedHeight, getTerrainHeight, constNoiseNeg]

/-- C1 (amended): the mesh vertex Y is the height normalization of
the collision height, so it equals the height queried by the
per-frame collision path exactly when that height lies outside the
open interval (-1, 1); both paths evaluate the same getTerrainHeight
function underneath. -/
theorem meshVertexY_matches_collision_height_iff (x z : ℚ) (noise : Noise) :
    meshVertexY x z noise = getTerrainHeight x z noise
      ↔ (getTerrainHeight x z noise ≤ -1 ∨ 1 ≤ getTerrainHeight x z noise) :=
  meshFixedHeight_eq_iff (getTerrainHeight x z noise)

/-- C4 (counterexample): with the cooldown fully expired but the
camera not in first-person mode, fire creates no projectile and
changes nothing, refuting that an expired cooldown alone guarantees
a projectile. -/
theorem fire_no_projectile_despite_cooldown_expired :
    droneReady.cooldown ≤ 0
    ∧ Drone.fire droneReady camOrigin ("third") = droneReady
    ∧ (Drone.fire droneReady camOrigin ("third")).projectiles = [] := by
  have hcool : ¬ (0 : ℚ) < droneReady.cooldown := by norm_num [droneReady]
  have hmode : ("third" : String) ≠ "first" := by decide
  refine ⟨by norm_num [droneReady], ?_, ?_⟩
  · unfold Drone.fire
    rw [if_neg hcool, if_pos hmode]
  · unfold Drone.fire
    rw [if_neg hcool, if_pos hmode]
    rfl

/-- C4 (amended): fire creates exactly one new projectile (appended
to the live set, with the cooldown reset to cooldownTime) precisely
when the cooldown is not positive and the mode is first-person; in
every other case the entire state is returned unchanged, so the
caller distinguishes rejection from success through the state, the
JavaScript function itself returning no value. -/
theorem fire_success_and_rejection_spec (d : Drone) (cam : Camera) (mode : String) :
    (¬ 0 < d.cooldown → mode = "first" →
      Drone.fire d cam mode =
        { d with
          cooldown := d.cooldownTime,
          projectiles := d.projectiles ++ [⟨cam.worldPos, cam.forward, d.projectileTTL⟩] })
    ∧ ((0 < d.cooldown ∨ mode ≠ "first") → Drone.fire d cam mode = d) := by
  constructor
  · intro hc hm
    unfold Drone.fire
    rw [if_neg hc, if_neg (by simp [hm])]
  · intro hrej
    unfold Drone.fire
    rcases hrej with hc | hm
    · rw [if_pos hc]
    · by_cases hc : 0 < d.cooldown
      · rw [if_pos hc]
      · rw [if_neg hc, if_pos hm]

/-- C4 (witness): the success branch at an expired cooldown in
first-person mode, and the rejection branch at a running cooldown. -/
theorem fire_success_and_rejection_spec_witness :
    (¬ 0 < droneReady.cooldown)
    ∧ Drone.fire droneReady camOrigin ("first") =
        { droneReady with
          cooldown := droneReady.cooldownTime,
          projectiles := droneReady.projectiles
            ++ [⟨camOrigin.worldPos, camOrigin.forward, droneReady.projectileTTL⟩] }
    ∧ Drone.fire droneHot camOrigin ("first") = droneHot :=
  ⟨by norm_num [droneReady],
   (fire_success_and_rejection_spec droneReady camOrigin ("first")).1
     (by norm_num [droneReady]) rfl,
   (fire_success_and_rejection_spec droneHot camOrigin ("first")).2
     (Or.inl (by norm_num [droneHot, DroneVariables.cooldownTime]))⟩

/-- C7: the source height function coincides with the two-step spec
formula (domain warp at a fixed layer per axis with the unwarped
coordinates, then the amplitude-weighted octave sum). -/
theorem getTerrainHeight_matches_spec_formula (x z : ℚ) (noise : Noise) :
    getTerrainHeight x z noise = specTerrainHeight x z noise := by
  simp only [getTerrainHeight, specTerrainHeight, specOctaves, List.foldl]
  rw [show x + noise (x * (1/1000)) (z * (1/1000)) 50 * 128
        = x + 128 * noise (x * (1/1000)) (z * (1/1000)) 50 by ring,
      show z + noise (x * (1/1000)) (z * (1/1000)) 100 * 128
        = z + 128 * noise (x * (1/1000)) (z * (1/1000)) 100 by ring]
  ring

/-- C8: the elevation classification is the total top-down
first-match lookup over the ordered threshold table with inclusive
upper bounds (a height equal to a threshold takes that buckets
color), heights above the last threshold take the catch-all color,
and the water surface parameters are selected exactly when the
height is at most 0. -/
theorem terrain_classification_total_first_match :
    (∀ h : ℚ, terrainColorFor h = firstMatchBucket h thresholdTable)
    ∧ (∀ p ∈ thresholdTable, terrainColorFor p.1 = p.2)
    ∧ (∀ h : ℚ, TerrainVariables.terrainHeight_p90 < h →
        terrainColorFor h = ColorVariables.terrainColor_p100)
    ∧ (∀ h : ℚ,
        surfaceAttrs h = (ColorVariables.waterMetalness, ColorVariables.waterRoughness)
          ↔ h ≤ 0) := by
  refine ⟨?_, ?_, ?_, ?_⟩
  · intro h
    simp only [terrainColorFor, thresholdTable, firstMatchBucket]
  · decide
  · intro h hh
    simp only [TerrainVariables.terrainHeight_p90] at hh
    simp only [terrainColorFor, TerrainVariables.terrainHeight_m50,
      TerrainVariables.terrainHeight_m40, TerrainVariables.terrainHeight_m30,
      TerrainVariables.terrainHeight_m20, TerrainVariables.terrainHeight_m10,
      TerrainVariables.terrainHeight_0, TerrainVariables.terrainHeight_p10,
      TerrainVariables.terrainHeight_p20, TerrainVariables.terrainHeight_p30,
      TerrainVariables.terrainHeight_p40, TerrainVariables.terrainHeight_p50,
      TerrainVariables.terrainHeight_p60, TerrainVariables.terrainHeight_p70,
      TerrainVariables.terrainHeight_p80, TerrainVariables.terrainHeight_p90]
    rw [if_neg (by linarith : ¬ h ≤ (-50 : ℚ)), if_neg (by linarith : ¬ h ≤ (-40 : ℚ)),
      if_neg (by linarith : ¬ h ≤ (-30 : ℚ)), if_neg (by linarith : ¬ h ≤ (-20 : ℚ)),
      if_neg (by linarith : ¬ h ≤ (-10 : ℚ)), if_neg (by linarith : ¬ h ≤ (0 : ℚ)),
      if_neg (by linarith : ¬ h ≤ (10 : ℚ)), if_neg (by linarith : ¬ h ≤ (20 : ℚ)),
      if_neg (by linarith : ¬ h ≤ (30 : ℚ)), if_neg (by linarith : ¬ h ≤ (40 : ℚ)),
      if_neg (by linarith : ¬ h ≤ (50 : ℚ)), if_neg (by linarith : ¬ h ≤ (60 : ℚ)),
      if_neg (by linarith : ¬ h ≤ (70 : ℚ)), if_neg (by linarith : ¬ h ≤ (80 : ℚ)),
      if_neg (by linarith : ¬ h ≤ (90 : ℚ))]
  · intro h
    unfold surfaceAttrs
    split_ifs with hw
    · exact iff_of_true rfl hw
    · refine iff_of_false (fun heq => ?_) hw
      have := congrArg Prod.fst heq
      norm_num [ColorVariables.landMetalness, ColorVariables.waterMetalness] at this

/-- C8 (witness): the threshold 0 selects its own bucket, a height
above all thresholds selects the catch-all color. -/
theorem terrain_classification_total_first_match_witness :
    ((0 : ℚ), ColorVariables.terrainColor_0) ∈ thresholdTable
    ∧ terrainColorFor 0 = ColorVariables.terrainColor_0
    ∧ terrainColorFor 91 = ColorVariables.terrainColor_p100 :=
  ⟨by decide,
   terrain_classification_total_first_match.2.1 ((0 : ℚ), ColorVariables.terrainColor_0)
     (by decide),
   terrain_classification_total_first_match.2.2.1 91
     (by norm_num [TerrainVariables.terrainHeight_p90])⟩

/-- C9: firing with any camera mode other than first-person leaves
the whole drone state unchanged, even with an expired cooldown. -/
theorem fire_requires_first_person_mode (d : Drone) (cam : Camera) (mode : String) :
    mode ≠ "first" → Drone.fire d cam mode = d := by
  intro hm
  unfold Drone.fire
  by_cases hc : 0 < d.cooldown
  · rw [if_pos hc]
  · rw [if_neg hc, if_pos hm]

/-- C9 (witness): a third-person fire with an expired cooldown is a
no-op. -/
theorem fire_requires_first_person_mode_witness :
    ("third" : String) ≠ "first" ∧ Drone.fire droneReady camOrigin ("third") = droneReady :=
  ⟨by decide, fire_requires_first_person_mode droneReady camOrigin ("third") (by decide)⟩

/-- C10: a constructor option supplied as 0 is falsy under the
logical-or defaulting, so the stored setting is the module default
(for worldSize: the terrain size, which the Terrain constructor sets
to the module default terrainSize). -/
theorem controls_zero_option_uses_default (terrain : TerrainCfg) (opts : ControlsOptions) :
    (opts.moveSpeed = some 0 →
      (DroneControls.ofOptions terrain opts).moveSpeed = DroneVariables.moveSpeed)
    ∧ (opts.rotateSpeed = some 0 →
      (DroneControls.ofOptions terrain opts).rotateSpeed = DroneVariables.rotateSpeed)
    ∧ (opts.heightMax = some 0 →
      (DroneControls.ofOptions terrain opts).heightMax = 2048)
    ∧ (opts.worldSize = some 0 → terrain.size = TerrainVariables.terrainSize →
      (DroneControls.ofOptions terrain opts).worldSize = TerrainVariables.terrainSize) := by
  refine ⟨fun h => ?_, fun h => ?_, fun h => ?_, fun h ht => ?_⟩
  · rw [ofOptions_moveSpeed, h, jsNumOr_some_zero]
  · rw [ofOptions_rotateSpeed, h, jsNumOr_some_zero]
  · rw [ofOptions_heightMax, h, jsNumOr_some_zero]
    rfl
  · rw [ofOptions_worldSize, h, jsNumOr_some_zero, ht, jsNumOrQ_self]

/-- C10 (witness): heightMax supplied as 0 yields 2048, and
worldSize supplied as 0 yields the terrain size. -/
theorem controls_zero_option_uses_default_witness :
    zeroOpts.heightMax = some 0
    ∧ (DroneControls.ofOptions defaultTerrainCfg zeroOpts).heightMax = 2048
    ∧ (DroneControls.ofOptions defaultTerrainCfg zeroOpts).worldSize
        = TerrainVariables.terrainSize :=
  ⟨rfl,
   (controls_zero_option_uses_default defaultTerrainCfg zeroOpts).2.2.1 rfl,
   (controls_zero_option_uses_default defaultTerrainCfg zeroOpts).2.2.2 rfl rfl⟩

/-- The lower clamp bound is respected. -/
theorem le_clampQ_lo (lo hi v : ℚ) : lo ≤ clampQ lo hi v :=
  le_max_left _ _

/-- The upper clamp bound is respected when the interval is sane. -/
theorem clampQ_le_hi (lo hi v : ℚ) (h : lo ≤ hi) : clampQ lo hi v ≤ hi :=
  max_le h (min_le_left _ _)

/-- Clamping into a symmetric interval bounds the magnitude. -/
theorem abs_clampQ_le (h v : ℚ) (hh : 0 ≤ h) : |clampQ (-h) h v| ≤ h := by
  rw [abs_le]
  exact ⟨le_clampQ_lo _ _ _, clampQ_le_hi _ _ _ (by linarith)⟩

/-- Clamping a value already inside the interval from below. -/
theorem min_min_add (h a b : ℚ) (hb : 0 ≤ b) :
    min h (min h a + b) = min h (a + b) := by
  rcases le_or_lt h a with hha | hha
  · rw [min_eq_left hha, min_eq_left (by linarith), min_eq_left (by linarith)]
  · rw [min_eq_right (le_of_lt hha)]

/-- The X component produced by applyInput. -/
theorem applyInput_x (c : DroneControls) (noise : Noise) (cosf sinf : ℚ → ℚ)
    (keys : Keys) (dt : ℚ) (s : DroneState) :
    (c.applyInput noise cosf sinf keys dt s).x
      = clampQ (-c.half) c.half (preX c cosf sinf keys dt s) := rfl

/-- The Z component produced by applyInput. -/
theorem applyInput_z (c : DroneControls) (noise : Noise) (cosf sinf : ℚ → ℚ)
    (keys : Keys) (dt : ℚ) (s : DroneState) :
    (c.applyInput noise cosf sinf keys dt s).z
      = clampQ (-c.half) c.half (preZ c cosf sinf keys dt s) := rfl

/-- The Y component produced by applyInput: clamped between the
ground minimum at the already clamped (x, z) and the ceiling. -/
theorem applyInput_y (c : DroneControls) (noise : Noise) (cosf sinf : ℚ → ℚ)
    (keys : Keys) (dt : ℚ) (s : DroneState) :
    (c.applyInput noise cosf sinf keys dt s).y
      = clampQ
          (max DroneVariables.nullPoint
            (getTerrainHeight
              (clampQ (-c.half) c.half (preX c cosf sinf keys dt s))
              (clampQ (-c.half) c.half (preZ c cosf sinf keys dt s)) noise
              + DroneVariables.minAboveGround))
          c.heightMax (preY c keys dt s) := rfl

/-- With no key pressed the translation block leaves X unchanged. -/
theorem preX_noKeys (c : DroneControls) (cosf sinf : ℚ → ℚ) (dt : ℚ) (s : DroneState) :
    preX c cosf sinf noKeys dt s = s.x := by
  simp [preX, noKeys]

/-- The stored worldSize of the App.js controls instance. -/
theorem appControls_worldSize : appControls.worldSize = 8192 := by
  norm_num [appControls, DroneControls.ofOptions, jsNumOr, jsNumOrQ,
    TerrainVariables.terrainSize, DroneVariables.moveSpeed,
    DroneVariables.rotateSpeed, DroneVariables.heightMax]

/-- The boundary half-extent of the App.js controls instance. -/
theorem appControls_half : appControls.half = 65536/17 := by
  rw [DroneControls.half, appControls_worldSize]
  norm_num [TerrainVariables.terrainBorderFactor, TerrainVariables.terrainBorderDelimiter]

/-- With only the right-strafe key held at zero yaw, the pre-clamp X
of the App.js controls advances by 64 units per second. -/
theorem preX_pushRight (t : ℚ) (s : DroneState) :
    preX appControls cosfOne sinfZero pushRightKeys t s = s.x + 64 * t := by
  simp only [preX, pushRightKeys, Keys.multiplier, cosfOne, sinfZero]
  norm_num [appControls, DroneControls.ofOptions, jsNumOr, DroneVariables.moveSpeed,
    DroneVariables.basicMultiplier]
  ring

/-- The height function is bounded by the sum of the octave
amplitudes whenever the noise samples stay within [-1, 1]. -/
theorem getTerrainHeight_abs_le (x z : ℚ) (noise : Noise)
    (hn : ∀ a b l : ℚ, |noise a b l| ≤ 1) :
    |getTerrainHeight x z noise| ≤ 130 := by
  simp only [getTerrainHeight]
  have h1 := hn ((x + noise (x * (1/1000)) (z * (1/1000)) 50 * 128) * (2/1000))
    ((z + noise (x * (1/1000)) (z * (1/1000)) 100 * 128) * (2/1000)) 0
  have h2 := hn ((x + noise (x * (1/1000)) (z * (1/1000)) 50 * 128) * (1/100))
    ((z + noise (x * (1/1000)) (z * (1/1000)) 100 * 128) * (1/100)) 0
  have h3 := hn ((x + noise (x * (1/1000)) (z * (1/1000)) 50 * 128) * (5/100))
    ((z + noise (x * (1/1000)) (z * (1/1000)) 100 * 128) * (5/100)) 0
  rw [abs_le] at h1 h2 h3 ⊢
  constructor <;> [linarith [h1.1, h2.1, h3.1]; linarith [h1.2, h2.2, h3.2]]

/-- Folding update over a cons peels one step. -/
theorem advanceAll_cons (d : Drone) (t : ℚ) (rest : List ℚ) :
    d.advanceAll (t :: rest) = (d.update t).advanceAll rest := rfl

/-- Folding update over the empty list is the identity. -/
theorem advanceAll_nil (d : Drone) : d.advanceAll [] = d := rfl

/-- update keeps the configured cooldown duration. -/
theorem update_cooldownTime (d : Drone) (dt : ℚ) :
    (d.update dt).cooldownTime = d.cooldownTime := rfl

/-- update keeps the configured projectile speed. -/
theorem update_projectileSpeed (d : Drone) (dt : ℚ) :
    (d.update dt).projectileSpeed = d.projectileSpeed := rfl

/-- The projectile list produced by one update step. -/
theorem update_projectiles (d : Drone) (dt : ℚ) :
    (d.update dt).projectiles
      = (d.projectiles.map (stepProjectile d.projectileSpeed dt)).filter
          (fun p => decide (0 < p.life)) := rfl

/-- One update step on a nonnegative cooldown subtracts dt, clamped
at zero. -/
theorem update_cooldown (d : Drone) (dt : ℚ) (hd : 0 ≤ d.cooldown) (hdt : 0 ≤ dt) :
    (d.update dt).cooldown = max 0 (d.cooldown - dt) := by
  simp only [Drone.update]
  split_ifs with hc
  · rfl
  · push_neg at hc
    have h0 : d.cooldown = 0 := le_antisymm hc hd
    rw [h0, zero_sub, max_eq_left (by linarith : -dt ≤ 0)]

/-- Folding update over nonnegative deltas subtracts their sum from a
nonnegative cooldown, clamped at zero. -/
theorem advanceAll_cooldown (dts : List ℚ) (d : Drone)
    (hdts : ∀ t ∈ dts, 0 ≤ t) (hd : 0 ≤ d.cooldown) :
    (d.advanceAll dts).cooldown = max 0 (d.cooldown - dts.sum) := by
  induction dts generalizing d with
  | nil =>
    rw [advanceAll_nil, List.sum_nil, sub_zero, max_eq_right hd]
  | cons t rest ih =>
    have ht : 0 ≤ t := hdts t (by simp)
    have hrest : ∀ u ∈ rest, 0 ≤ u := fun u hu => hdts u (by simp [hu])
    have hs : 0 ≤ rest.sum := List.sum_nonneg hrest
    rw [advanceAll_cons,
      ih (d.update t) hrest (by rw [update_cooldown d t hd ht]; exact le_max_left _ _),
      update_cooldown d t hd ht, List.sum_cons]
    rcases le_or_lt (d.cooldown - t) 0 with hc | hc
    · rw [max_eq_left hc, zero_sub, max_eq_left (by linarith : -rest.sum ≤ 0),
        max_eq_left (by linarith : d.cooldown - (t + rest.sum) ≤ 0)]
    · rw [max_eq_right (le_of_lt hc), sub_sub]

/-- A drone with no live projectile keeps none under any advance. -/
theorem advanceAll_projectiles_nil (dts : List ℚ) (d : Drone)
    (h : d.projectiles = []) : (d.advanceAll dts).projectiles = [] := by
  induction dts generalizing d with
  | nil => exact h
  | cons t rest ih =>
    rw [advanceAll_cons]
    exact ih _ (by rw [update_projectiles, h]; rfl)

/-- Adding a zero-scaled direction does not move a position. -/
theorem Vec3.add_scale_zero (v w : Vec3) : v.add (Vec3.scale 0 w) = v := by
  simp [Vec3.add, Vec3.scale]

/-- Two successive moves along the same direction compose by adding
the scales. -/
theorem Vec3.add_scale_scale (v w : Vec3) (a b : ℚ) :
    (v.add (Vec3.scale a w)).add (Vec3.scale b w) = v.add (Vec3.scale (a + b) w) := by
  simp only [Vec3.add, Vec3.scale, Vec3.mk.injEq]
  refine ⟨by ring, by ring, by ring⟩

/-- A single live projectile under a fold of updates: still present
with the accumulated displacement and reduced life while the summed
time stays below its life, removed once the sum reaches it. -/
theorem advanceAll_single_projectile (dts : List ℚ) (d : Drone) (p : Projectile)
    (hp : d.projectiles = [p]) (hlife : 0 < p.life) (hdts : ∀ t ∈ dts, 0 ≤ t) :
    (d.advanceAll dts).projectiles =
      if dts.sum < p.life then
        [⟨p.pos.add (Vec3.scale (d.projectileSpeed * dts.sum) p.dir), p.dir,
          p.life - dts.sum⟩]
      else [] := by
  induction dts generalizing d p with
  | nil =>
    rw [advanceAll_nil, List.sum_nil, if_pos hlife, hp]
    have hpos : p.pos.add (Vec3.scale (d.projectileSpeed * 0) p.dir) = p.pos := by
      rw [mul_zero, Vec3.add_scale_zero]
    rw [hpos, sub_zero]
  | cons t rest ih =>
    have ht : 0 ≤ t := hdts t (by simp)
    have hrest : ∀ u ∈ rest, 0 ≤ u := fun u hu => hdts u (by simp [hu])
    have hs : 0 ≤ rest.sum := List.sum_nonneg hrest
    rw [advanceAll_cons, List.sum_cons]
    rcases lt_or_le t p.life with hlt | hge
    · have hkeep : 0 < p.life - t := by linarith
      have hq : (d.update t).projectiles = [stepProjectile d.projectileSpeed t p] := by
        rw [update_projectiles, hp]
        simp [stepProjectile, List.filter, hkeep]
      have ihq := ih (d.update t) (stepProjectile d.projectileSpeed t p) hq
        (by simpa [stepProjectile] using hkeep) hrest
      rw [ihq, update_projectileSpeed]
      have hcond : (rest.sum < (stepProjectile d.projectileSpeed t p).life)
          = (t + rest.sum < p.life) := by
        apply propext
        simp only [stepProjectile]
        constructor <;> intro <;> linarith
      simp only [hcond]
      split_ifs with hlt2
      · simp only [stepProjectile, Vec3.add_scale_scale]
        rw [show d.projectileSpeed * t + d.projectileSpeed * rest.sum
              = d.projectileSpeed * (t + rest.sum) by ring,
            show p.life - t - rest.sum = p.life - (t + rest.sum) by ring]
      · rfl
    · have hdead : ¬ 0 < p.life - t := by linarith
      have hq : (d.update t).projectiles = [] := by
        rw [update_projectiles, hp]
        simp [stepProjectile, List.filter, hdead]
      rw [advanceAll_projectiles_nil rest _ hq,
        if_neg (by linarith : ¬ t + rest.sum < p.life)]

/-- Clamping a value at or above the upper bound lands exactly on the
upper bound. -/
theorem clampQ_eq_hi (lo hi v : ℚ) (hv : hi ≤ v) (hlo : lo ≤ hi) :
    clampQ lo hi v = hi := by
  unfold clampQ
  rw [min_eq_left hv, max_eq_right hlo]

/-- Clamping a value already inside the interval returns it. -/
theorem clampQ_eq_self (lo hi v : ℚ) (h1 : lo ≤ v) (h2 : v ≤ hi) :
    clampQ lo hi v = v := by
  unfold clampQ
  rw [min_eq_right h2, max_eq_right h1]

/-- A successful fire call appends one projectile and resets the
cooldown. -/
theorem fire_success (d : Drone) (cam : Camera) (h : ¬ 0 < d.cooldown) :
    d.fire cam ("first")
      = { d with
          cooldown := d.cooldownTime,
          projectiles := d.projectiles
            ++ [⟨cam.worldPos, cam.forward, d.projectileTTL⟩] } := by
  unfold Drone.fire
  rw [if_neg h, if_neg (by simp)]

/-- A fire call during a running cooldown changes nothing. -/
theorem fire_pos_cooldown (d : Drone) (cam : Camera) (mode : String)
    (h : 0 < d.cooldown) : d.fire cam mode = d := by
  unfold Drone.fire
  rw [if_pos h]

/-- X component of a fold of right-strafe updates at zero yaw on the
App.js controls: saturating motion toward the positive boundary. -/
theorem pushRight_fold_x (noise : Noise) :
    ∀ (dts : List ℚ), (∀ t ∈ dts, 0 ≤ t) →
    ∀ s : DroneState, -appControls.half ≤ s.x → s.x ≤ appControls.half →
      (dts.foldl
        (fun st t => appControls.applyInput noise cosfOne sinfZero pushRightKeys t st)
        s).x = min appControls.half (s.x + 64 * dts.sum) := by
  have h0 : (0 : ℚ) ≤ appControls.half := by rw [appControls_half]; norm_num
  have hneg : -appControls.half ≤ appControls.half := by linarith
  intro dts
  induction dts with
  | nil =>
    intro _ s _ hs2
    simp only [List.foldl_nil, List.sum_nil, mul_zero, add_zero]
    exact (min_eq_right hs2).symm
  | cons t rest ih =>
    intro hdts s hs1 hs2
    have ht : 0 ≤ t := hdts t (by simp)
    have hrest : ∀ u ∈ rest, 0 ≤ u := fun u hu => hdts u (by simp [hu])
    have hs : 0 ≤ rest.sum := List.sum_nonneg hrest
    rw [List.foldl_cons, List.sum_cons]
    have hx1 : (appControls.applyInput noise cosfOne sinfZero pushRightKeys t s).x
        = min appControls.half (s.x + 64 * t) := by
      rw [applyInput_x, preX_pushRight]
      unfold clampQ
      rw [max_eq_right (le_min hneg (by linarith : -appControls.half ≤ s.x + 64 * t))]
    have hb1 : -appControls.half
        ≤ (appControls.applyInput noise cosfOne sinfZero pushRightKeys t s).x := by
      rw [applyInput_x]
      exact le_clampQ_lo _ _ _
    have hb2 : (appControls.applyInput noise cosfOne sinfZero pushRightKeys t s).x
        ≤ appControls.half := by
      rw [applyInput_x]
      exact clampQ_le_hi _ _ _ hneg
    rw [ih hrest _ hb1 hb2, hx1,
      min_min_add _ _ _ (by linarith : (0 : ℚ) ≤ 64 * rest.sum)]
    congr 1
    ring

/-- C2: after any applyInput step with nonnegative dt and any key
state, provided the noise samples respect the ImprovedNoise range
[-1, 1] and the configured ceiling is at least the maximal ground
minimum 130 + minAboveGround, the resulting world Y is at least
max(0, terrain height at the final (x, z) + minAboveGround) and at
most heightMax. -/
theorem applyInput_altitude_clamped (c : DroneControls) (noise : Noise)
    (cosf sinf : ℚ → ℚ) (keys : Keys) (dt : ℚ) (s : DroneState)
    (_hdt : 0 ≤ dt)
    (hn : ∀ a b l : ℚ, |noise a b l| ≤ 1)
    (hmax : 130 + DroneVariables.minAboveGround ≤ c.heightMax) :
    max 0 (getTerrainHeight (c.applyInput noise cosf sinf keys dt s).x
        (c.applyInput noise cosf sinf keys dt s).z noise
        + DroneVariables.minAboveGround)
      ≤ (c.applyInput noise cosf sinf keys dt s).y
    ∧ (c.applyInput noise cosf sinf keys dt s).y ≤ c.heightMax := by
  rw [applyInput_x, applyInput_z, applyInput_y]
  have hg := getTerrainHeight_abs_le
    (clampQ (-c.half) c.half (preX c cosf sinf keys dt s))
    (clampQ (-c.half) c.half (preZ c cosf sinf keys dt s)) noise hn
  rw [abs_le] at hg
  have hm4 : DroneVariables.minAboveGround = 4 := rfl
  rw [hm4] at hmax ⊢
  constructor
  · have hlo := le_clampQ_lo
      (max DroneVariables.nullPoint
        (getTerrainHeight
          (clampQ (-c.half) c.half (preX c cosf sinf keys dt s))
          (clampQ (-c.half) c.half (preZ c cosf sinf keys dt s)) noise
          + DroneVariables.minAboveGround))
      c.heightMax (preY c keys dt s)
    rw [hm4] at hlo
    simpa [DroneVariables.nullPoint] using hlo
  · apply clampQ_le_hi
    apply max_le
    · rw [show DroneVariables.nullPoint = 0 from rfl]
      linarith [hg.2]
    · linarith [hg.2]

/-- C2 (witness): the invariant at the App.js configuration, zero
noise, no keys, dt = 0, from the start pose. -/
theorem applyInput_altitude_clamped_witness :
    (0 : ℚ) ≤ 0
    ∧ (∀ a b l : ℚ, |noiseZero a b l| ≤ 1)
    ∧ 130 + DroneVariables.minAboveGround ≤ appControls.heightMax
    ∧ (max 0 (getTerrainHeight
          (appControls.applyInput noiseZero cosfOne sinfZero noKeys 0 startState).x
          (appControls.applyInput noiseZero cosfOne sinfZero noKeys 0 startState).z
          noiseZero + DroneVariables.minAboveGround)
        ≤ (appControls.applyInput noiseZero cosfOne sinfZero noKeys 0 startState).y
      ∧ (appControls.applyInput noiseZero cosfOne sinfZero noKeys 0 startState).y
          ≤ appControls.heightMax) :=
  ⟨le_refl 0,
   fun a b l => by norm_num [noiseZero],
   by norm_num [DroneVariables.minAboveGround, appControls, DroneControls.ofOptions,
     jsNumOr, DroneVariables.heightMax, DroneVariables.moveSpeed,
     DroneVariables.rotateSpeed],
   applyInput_altitude_clamped appControls noiseZero cosfOne sinfZero noKeys 0 startState
     (le_refl 0) (fun a b l => by norm_num [noiseZero])
     (by norm_num [DroneVariables.minAboveGround, appControls, DroneControls.ofOptions,
       jsNumOr, DroneVariables.heightMax, DroneVariables.moveSpeed,
       DroneVariables.rotateSpeed])⟩

/-- C3: the boundary half-extent of the App.js configuration is
65536/17, within 1/10 of 3855.1; every update lands X and Z inside
[-half, half]; one update from x = 4000 clamps exactly to half; a
repeated outward strafe converges to exactly half and never beyond
(saturating at min half); and an update with no keys from a pose
already at either boundary leaves X unchanged. -/
theorem applyInput_world_boundary_clamp :
    appControls.half = 65536/17
    ∧ |appControls.half - 38551/10| ≤ 1/10
    ∧ (∀ (noise : Noise) (cosf sinf : ℚ → ℚ) (keys : Keys) (dt : ℚ) (s : DroneState),
        |(appControls.applyInput noise cosf sinf keys dt s).x| ≤ appControls.half
        ∧ |(appControls.applyInput noise cosf sinf keys dt s).z| ≤ appControls.half)
    ∧ (∀ (noise : Noise) (cosf sinf : ℚ → ℚ) (dt y0 z0 yaw0 : ℚ),
        (appControls.applyInput noise cosf sinf noKeys dt ⟨4000, y0, z0, yaw0⟩).x
          = appControls.half)
    ∧ (∀ (noise : Noise) (dts : List ℚ), (∀ t ∈ dts, 0 ≤ t) →
        ∀ s : DroneState, -appControls.half ≤ s.x → s.x ≤ appControls.half →
          (dts.foldl
            (fun st t => appControls.applyInput noise cosfOne sinfZero pushRightKeys t st)
            s).x = min appControls.half (s.x + 64 * dts.sum))
    ∧ (∀ (noise : Noise) (cosf sinf : ℚ → ℚ) (dt y0 z0 yaw0 : ℚ),
        (appControls.applyInput noise cosf sinf noKeys dt
          ⟨appControls.half, y0, z0, yaw0⟩).x = appControls.half
        ∧ (appControls.applyInput noise cosf sinf noKeys dt
          ⟨-appControls.half, y0, z0, yaw0⟩).x = -appControls.half) := by
  have h0 : (0 : ℚ) ≤ appControls.half := by rw [appControls_half]; norm_num
  have hneg : -appControls.half ≤ appControls.half := by linarith
  refine ⟨appControls_half, ?_, ?_, ?_, ?_, ?_⟩
  · rw [appControls_half, abs_le]
    constructor <;> norm_num
  · intro noise cosf sinf keys dt s
    rw [applyInput_x, applyInput_z]
    exact ⟨abs_clampQ_le _ _ h0, abs_clampQ_le _ _ h0⟩
  · intro noise cosf sinf dt y0 z0 yaw0
    rw [applyInput_x, preX_noKeys]
    exact clampQ_eq_hi _ _ _
      (by show appControls.half ≤ (4000 : ℚ); rw [appControls_half]; norm_num) hneg
  · exact fun noise => pushRight_fold_x noise
  · intro noise cosf sinf dt y0 z0 yaw0
    constructor
    · rw [applyInput_x, preX_noKeys]
      exact clampQ_eq_self _ _ _ hneg (le_refl _)
    · rw [applyInput_x, preX_noKeys]
      exact clampQ_eq_self _ _ _ (le_refl _) hneg

/-- C3 (witness): the saturating-fold conjunct at one outward second
from the start pose, and the one-step clamp from x = 4000. -/
theorem applyInput_world_boundary_clamp_witness :
    (∀ t ∈ ([1] : List ℚ), (0 : ℚ) ≤ t)
    ∧ (-appControls.half ≤ startState.x ∧ startState.x ≤ appControls.half)
    ∧ (([1] : List ℚ).foldl
        (fun st t => appControls.applyInput noiseZero cosfOne sinfZero pushRightKeys t st)
        startState).x = min appControls.half (startState.x + 64 * ([1] : List ℚ).sum)
    ∧ (appControls.applyInput noiseZero cosfOne sinfZero noKeys 0
        ⟨4000, 50, 0, 0⟩).x = appControls.half :=
  ⟨by simp,
   ⟨by rw [appControls_half]; norm_num [startState],
    by rw [appControls_half]; norm_num [startState]⟩,
   applyInput_world_boundary_clamp.2.2.2.2.1 noiseZero [1] (by simp) startState
     (by rw [appControls_half]; norm_num [startState])
     (by rw [appControls_half]; norm_num [startState]),
   applyInput_world_boundary_clamp.2.2.2.1 noiseZero cosfOne sinfZero 0 50 0 0⟩

/-- C5: starting from an expired cooldown, a first-person fire
creates exactly one projectile; after advancing by deltas summing to
less than cooldownTime every further fire call (any mode) is a
complete no-op; once the summed advance reaches cooldownTime, a
first-person fire succeeds again with exactly one new projectile. -/
theorem fire_once_per_cooldown_window (d0 : Drone) (cam cam2 : Camera)
    (mode2 : String) (dts : List ℚ)
    (hc : ¬ 0 < d0.cooldown) (hct : 0 ≤ d0.cooldownTime)
    (hdts : ∀ t ∈ dts, 0 ≤ t) :
    ((d0.fire cam ("first")).projectiles.length = d0.projectiles.length + 1)
    ∧ (dts.sum < d0.cooldownTime →
        ((d0.fire cam ("first")).advanceAll dts).fire cam2 mode2
          = (d0.fire cam ("first")).advanceAll dts)
    ∧ (d0.cooldownTime ≤ dts.sum →
        (((d0.fire cam ("first")).advanceAll dts).fire cam2 ("first")).projectiles.length
          = ((d0.fire cam ("first")).advanceAll dts).projectiles.length + 1) := by
  have hfire := fire_success d0 cam hc
  have hcool1 : (d0.fire cam ("first")).cooldown = d0.cooldownTime := by rw [hfire]
  have hcool2 : ((d0.fire cam ("first")).advanceAll dts).cooldown
      = max 0 (d0.cooldownTime - dts.sum) := by
    rw [advanceAll_cooldown dts _ hdts (by rw [hcool1]; exact hct), hcool1]
  refine ⟨?_, ?_, ?_⟩
  · rw [hfire]
    simp
  · intro hlt
    refine fire_pos_cooldown _ cam2 mode2 ?_
    rw [hcool2, max_eq_right (by linarith : (0 : ℚ) ≤ d0.cooldownTime - dts.sum)]
    linarith
  · intro hge
    have hzero : ¬ 0 < ((d0.fire cam ("first")).advanceAll dts).cooldown := by
      rw [hcool2, max_eq_left (by linarith : d0.cooldownTime - dts.sum ≤ 0)]
      exact lt_irrefl 0
    rw [fire_success _ cam2 hzero]
    simp

/-- C5 (witness): from the ready drone, the first fire creates one
projectile and a second fire after 1/10 s of advance is rejected. -/
theorem fire_once_per_cooldown_window_witness :
    (¬ 0 < droneReady.cooldown)
    ∧ (([1/10] : List ℚ).sum < droneReady.cooldownTime)
    ∧ ((droneReady.fire camOrigin ("first")).projectiles.length
        = droneReady.projectiles.length + 1)
    ∧ (((droneReady.fire camOrigin ("first")).advanceAll [1/10]).fire camOrigin ("third")
        = (droneReady.fire camOrigin ("first")).advanceAll [1/10]) :=
  ⟨by norm_num [droneReady],
   by norm_num [droneReady, DroneVariables.cooldownTime],
   (fire_once_per_cooldown_window droneReady camOrigin camOrigin ("third") [1/10]
     (by norm_num [droneReady])
     (by norm_num [droneReady, DroneVariables.cooldownTime])
     (by norm_num)).1,
   (fire_once_per_cooldown_window droneReady camOrigin camOrigin ("third") [1/10]
     (by norm_num [droneReady])
     (by norm_num [droneReady, DroneVariables.cooldownTime])
     (by norm_num)).2.1
     (by norm_num [droneReady, DroneVariables.cooldownTime])⟩

/-- One update step on an arbitrary live set: the survivors are
exactly the projectiles with more than dt of life left, each moved
by its direction scaled with projectileSpeed * dt and with dt of
life consumed. -/
theorem update_projectiles_filter (d : Drone) (t : ℚ) :
    (d.update t).projectiles
      = (d.projectiles.filter (fun p => decide (t < p.life))).map
          (stepProjectile d.projectileSpeed t) := by
  rw [update_projectiles, List.filter_map]
  congr 1
  apply List.filter_congr
  intro p _
  simp only [Function.comp_apply, stepProjectile]
  exact decide_eq_decide.mpr sub_pos

/-- Folding update over nonnegative deltas on an arbitrary live set
of positive-life projectiles: the survivors are exactly those whose
life exceeds the summed time, each carrying the accumulated
displacement and the summed life loss. -/
theorem advanceAll_projectiles (dts : List ℚ) (d : Drone)
    (hdts : ∀ t ∈ dts, 0 ≤ t) (hpos : ∀ p ∈ d.projectiles, 0 < p.life) :
    (d.advanceAll dts).projectiles
      = (d.projectiles.filter (fun p => decide (dts.sum < p.life))).map
          (fun p => ⟨p.pos.add (Vec3.scale (d.projectileSpeed * dts.sum) p.dir), p.dir,
            p.life - dts.sum⟩) := by
  induction dts generalizing d with
  | nil =>
    rw [advanceAll_nil, List.sum_nil,
      List.filter_eq_self.mpr (fun p hp => by simpa using hpos p hp)]
    have hmap : ∀ p ∈ d.projectiles,
        (⟨p.pos.add (Vec3.scale (d.projectileSpeed * 0) p.dir), p.dir,
          p.life - 0⟩ : Projectile) = id p := by
      intro p _
      simp only [mul_zero, Vec3.add_scale_zero, sub_zero, id_eq]
    rw [List.map_congr_left hmap, List.map_id]
  | cons t rest ih =>
    have ht : 0 ≤ t := hdts t (by simp)
    have hrest : ∀ u ∈ rest, 0 ≤ u := fun u hu => hdts u (by simp [hu])
    have hS : 0 ≤ rest.sum := List.sum_nonneg hrest
    have hpos2 : ∀ p ∈ (d.update t).projectiles, 0 < p.life := by
      intro p hp
      rw [update_projectiles] at hp
      simpa using List.of_mem_filter hp
    rw [advanceAll_cons, ih (d.update t) hrest hpos2, update_projectileSpeed,
      update_projectiles_filter, List.filter_map, List.filter_filter, List.map_map,
      List.sum_cons]
    have hfil : ∀ x ∈ d.projectiles,
        (((fun p => decide (rest.sum < p.life))
            ∘ stepProjectile d.projectileSpeed t) x
          && (fun p => decide (t < p.life)) x)
        = (fun p => decide (t + rest.sum < p.life)) x := by
      intro x _
      simp only [Function.comp_apply, stepProjectile]
      by_cases hlt : t + rest.sum < x.life
      · have h1 : rest.sum < x.life - t := by linarith
        have h2 : t < x.life := by linarith
        simp [h1, h2, hlt]
      · have h1 : ¬ rest.sum < x.life - t := fun hcon => hlt (by linarith)
        simp [h1, hlt]
    rw [List.filter_congr hfil]
    apply List.map_congr_left
    intro x _
    simp only [Function.comp_apply, stepProjectile, Vec3.add_scale_scale]
    rw [show d.projectileSpeed * t + d.projectileSpeed * rest.sum
          = d.projectileSpeed * (t + rest.sum) by ring,
        show x.life - t - rest.sum = x.life - (t + rest.sum) by ring]

/-- C6: on any live set whose projectiles all have positive remaining
life, every advance step moves every live projectile by its
direction scaled with projectileSpeed * dt and decreases its
remaining life by dt, removing exactly those whose life drops to 0
or below; over any sequence of nonnegative deltas, a projectile with
time-to-live T stays in the live set exactly while the accumulated
time is below T (carrying the accumulated displacement) and is gone
once the accumulated time reaches T. -/
theorem projectile_ttl_lifecycle (d : Drone) (dts : List ℚ)
    (hpos : ∀ p ∈ d.projectiles, 0 < p.life) (hdts : ∀ t ∈ dts, 0 ≤ t) :
    (∀ t : ℚ, (d.update t).projectiles
        = (d.projectiles.filter (fun p => decide (t < p.life))).map
            (stepProjectile d.projectileSpeed t))
    ∧ ((d.advanceAll dts).projectiles
        = (d.projectiles.filter (fun p => decide (dts.sum < p.life))).map
            (fun p => ⟨p.pos.add (Vec3.scale (d.projectileSpeed * dts.sum) p.dir),
              p.dir, p.life - dts.sum⟩)) :=
  ⟨fun t => update_projectiles_filter d t, advanceAll_projectiles dts d hdts hpos⟩

/-- C6 (witness): a drone with two concurrent live projectiles,
advanced by two one-second steps: the 4 s projectile survives with
the accumulated displacement, the 1.5 s projectile is removed. -/
theorem projectile_ttl_lifecycle_witness :
    (∀ p ∈ droneTwoProj.projectiles, (0 : ℚ) < p.life)
    ∧ ((droneTwoProj.advanceAll [1, 1]).projectiles =
        (droneTwoProj.projectiles.filter
          (fun p => decide (([1, 1] : List ℚ).sum < p.life))).map
          (fun p => ⟨p.pos.add
              (Vec3.scale (droneTwoProj.projectileSpeed * ([1, 1] : List ℚ).sum) p.dir),
            p.dir, p.life - ([1, 1] : List ℚ).sum⟩)) :=
  ⟨by norm_num [droneTwoProj, projFull, projHalf, DroneVariables.projectileTTL,
     List.forall_mem_cons],
   (projectile_ttl_lifecycle droneTwoProj [1, 1]
     (by norm_num [droneTwoProj, projFull, projHalf, DroneVariables.projectileTTL,
       List.forall_mem_cons])
     (by simp)).2⟩
